import Mathlib

/-!
Verification of the RAG query pipeline of the Situation Room backend
(`backend/app/services/rag_pipeline.py`).

The pipeline's pure logic is shallowly embedded here: Python strings become
`String`, floats become `ℚ` (every runtime float value is a rational number),
Python dictionaries with a fixed key set become structures with `Option`
fields, and the SQLAlchemy store is a `List` of record structures with the
query `WHERE` clause translated to a boolean predicate.  The only pieces of
behaviour that are not translated from code in the repository are the
external `geopy.distance.geodesic` call (kept abstract as a distance-function
parameter `dist`) and the remote OpenAI call (kept abstract as a
`RemoteOutcome` parameter); everything else follows the Python source
line by line.
-/

/-- Python's `str.lower()`.  `Char.toLower` lowercases ASCII letters and
leaves everything else (digits, punctuation, Arabic letters, which have no
case) unchanged, which agrees with Python on every alphabet the pipeline's
keyword tables use. -/
def pyLower (s : String) : String :=
  ⟨s.data.map Char.toLower⟩

/-- Python's `needle in haystack` on strings: contiguous substring test. -/
def substrOf (needle hay : String) : Bool :=
  decide (needle.data <:+: hay.data)

/-- The `QUERY_TYPES` keyword table of `rag_pipeline.py`, in the dictionary's
insertion order (which fixes the tie-break priority of `max`). -/
def QUERY_TYPES : List (String × List String) :=
  [("facility_search",
    ["hospital", "clinic", "health center", "pharmacy", "facility",
     "medical", "trauma", "icu", "emergency department", "ed",
     "مستشفى", "عيادة", "صيدلية"]),
   ("resource_search",
    ["ambulance", "shelter", "supply", "distribution", "water",
     "food", "medicine", "equipment", "إسعاف", "مأوى"]),
   ("status_query",
    ["status", "operational", "power", "oxygen", "water supply",
     "capacity", "beds", "available", "wait time", "حالة"]),
   ("geographic_search",
    ["nearest", "closest", "within", "near", "km", "distance",
     "route", "direction", "map", "area", "zone", "الأقرب"]),
   ("statistical",
    ["how many", "total", "count", "percentage", "average",
     "distribution", "summary", "statistics", "كم عدد"])]

/-- Python's `sum(1 for kw in keywords if kw in query_lower)`: the number of keywords
of a category that occur in the lowercased query. -/
def scoreOf (ql : String) (keywords : List String) : Nat :=
  (keywords.filter (fun kw => substrOf kw ql)).length

/-- Python's `max(scores, key=scores.get)` over the scored categories:
keeps the first pair attaining the maximal score (a later pair replaces the
current best only when its score is strictly greater). -/
def bestOf : (String × Nat) → List (String × Nat) → (String × Nat)
  | best, [] => best
  | best, p :: rest => bestOf (if best.2 < p.2 then p else best) rest

/-- The selection step of `classify_query`: `best = max(scores,
key=scores.get); return best if scores[best] > 0 else "facility_search"`
(the scored pairs have distinct names, so `scores[best]` is the score of the
selected pair). -/
def pickBest : List (String × Nat) → String
  | [] => "facility_search"
  | s :: rest =>
    let best := bestOf s rest
    if 0 < best.2 then best.1 else "facility_search"

/-- Function `classify_query` of `rag_pipeline.py`: score every category by keyword
hits against the lowercased query, pick the first best, and fall back to
`"facility_search"` when every score is zero. -/
def classify_query (query : String) : String :=
  let ql := pyLower query
  pickBest (QUERY_TYPES.map (fun p => (p.1, scoreOf ql p.2)))

/-- Numeric value of a run of ASCII digits (what `int(...)`/`float(...)` do
to the digit-only group captured by the extractor's regexes). -/
def digitsToNat (ds : List Char) : Nat :=
  ds.foldl (fun n c => 10 * n + (c.toNat - 48)) 0

/-- One attempt of the regex `(\d+)\s*km` anchored at the head of `l`:
a maximal run of digits, optional whitespace, then the literal `km`.
The regex needs no backtracking here (no word starts with a digit or a
whitespace character), so the greedy reading is exact. -/
def matchDistAt (l : List Char) : Option Nat :=
  let ds := l.takeWhile Char.isDigit
  if ds = [] then none
  else
    let rest := (l.drop ds.length).dropWhile Char.isWhitespace
    if "km".data.isPrefixOf rest then some (digitsToNat ds) else none

/-- The word alternation of the capacity regex, in the regex's order. -/
def capWords : List String := ["people", "person", "capacity", "beds", "bed"]

/-- One attempt of `(\d+)\+?\s*(?:people|person|capacity|beds|bed)` anchored
at the head of `l`. -/
def matchCapAt (l : List Char) : Option Nat :=
  let ds := l.takeWhile Char.isDigit
  if ds = [] then none
  else
    let rest1 := l.drop ds.length
    let rest2 := match rest1 with
      | '+' :: t => t
      | _ => rest1
    let rest3 := rest2.dropWhile Char.isWhitespace
    if capWords.any (fun w => w.data.isPrefixOf rest3) then some (digitsToNat ds) else none

/-- Python's `re.search`: try the anchored matcher at every position, left to right,
and return the first hit. -/
def scanFor (m : List Char → Option Nat) : List Char → Option Nat
  | [] => none
  | c :: cs =>
    match m (c :: cs) with
    | some n => some n
    | none => scanFor m cs

/-- The `FacilityType` enum values of `models.py`, in declaration order. -/
def FacilityTypeValues : List String :=
  ["hospital", "clinic", "pharmacy", "field_hospital", "health_center"]

/-- The `ResourceType` enum values of `models.py`, in declaration order. -/
def ResourceTypeValues : List String :=
  ["ambulance", "medical_supply", "shelter", "distribution_point", "water_point"]

/-- Python's `value.replace("_", " ")` for the single-character pattern used on the
enum values. -/
def underscoreToSpace (s : String) : String :=
  ⟨s.data.map (fun c => if c = '_' then ' ' else c)⟩

/-- Worker for Python's `str.title()`: the flag records whether the previous
character was alphabetic (cased). -/
def pyTitleGo : Bool → List Char → List Char
  | _, [] => []
  | prevAlpha, c :: cs =>
    if c.isAlpha then
      (if prevAlpha then c.toLower else c.toUpper) :: pyTitleGo true cs
    else
      c :: pyTitleGo false cs

/-- Python's `str.title()`: uppercase every letter that follows a non-letter,
lowercase the rest (exact for the ASCII gazetteer entries it is applied to). -/
def pyTitle (s : String) : String :=
  ⟨pyTitleGo false s.data⟩

/-- The `westbank_districts` gazetteer of `extract_entities`, in source
order. -/
def westbank_districts : List String :=
  ["ramallah", "al-bireh", "nablus", "hebron", "al-khalil", "bethlehem",
   "jenin", "tulkarm", "qalqilya", "salfit", "tubas", "jericho",
   "jerusalem", "huwara", "beit jala", "beit sahour", "dura",
   "yatta", "azzun", "anabta", "silwad", "birzeit", "al-aghwar"]

/-- The sparse entity dictionary produced by `extract_entities`.  A key that
the Python code never inserts is `none` / `false`; the `needs_*` keys are
only ever set to `True`, so they are plain booleans here. -/
structure Entities where
  radius_km : Option ℚ := none
  min_capacity : Option Int := none
  facility_type : Option String := none
  resource_type : Option String := none
  status : Option String := none
  needs_oxygen : Bool := false
  needs_power : Bool := false
  needs_trauma : Bool := false
  district : Option String := none
deriving DecidableEq

/-- Function `extract_entities` of `rag_pipeline.py`, rule by rule.  The enum-value
and gazetteer loops assign without breaking, so a later match overwrites an
earlier one; `"hospital"` sets the facility type only when the enum loop left
it unset. -/
def extract_entities (query : String) : Entities :=
  let ql := pyLower query
  let radius_km := (scanFor matchDistAt ql.data).map (fun n => ((n : ℚ)))
  let min_capacity := (scanFor matchCapAt ql.data).map (fun n => ((n : Int)))
  let ft0 := FacilityTypeValues.foldl
    (fun acc ft => if substrOf (underscoreToSpace ft) ql then some ft else acc) none
  let facility_type := if substrOf "hospital" ql && ft0.isNone then some "hospital" else ft0
  let resource_type := ResourceTypeValues.foldl
    (fun acc rt => if substrOf (underscoreToSpace rt) ql then some rt else acc) none
  let status :=
    if ["functional", "operational", "working", "open"].any (fun w => substrOf w ql) then
      some "operational"
    else none
  let needs_oxygen := substrOf "oxygen" ql
  let needs_power := substrOf "power" ql || substrOf "electricity" ql
  let needs_trauma := substrOf "trauma" ql
  let district := westbank_districts.foldl
    (fun acc d => if substrOf d ql then some (pyTitle d) else acc) none
  { radius_km, min_capacity, facility_type, resource_type, status,
    needs_oxygen, needs_power, needs_trauma, district }

/-- A latitude/longitude pair, the argument shape of the distance calls. -/
structure Coord where
  lat : ℚ
  lon : ℚ
deriving DecidableEq

/-- Python's `round(x, 2)` on the rational value of a float: round half to
even at the second decimal (representation artifacts of binary floats are
abstracted away). -/
def round2 (q : ℚ) : ℚ :=
  let s := q * 100
  let f : Int := ⌊s⌋
  let r := s - (f : ℚ)
  let n : Int :=
    if r < 1/2 then f
    else if 1/2 < r then f + 1
    else if f % 2 = 0 then f else f + 1
  (n : ℚ) / 100

/-- A `health_facilities` row (`models.py`), restricted to the columns the
pipeline reads; enum-typed columns carry their string `value`. -/
structure HealthFacility where
  name : String
  facility_type : String
  status : String
  latitude : ℚ
  longitude : ℚ
  district : String
  governorate : String
  total_beds : Int
  available_beds : Int
  icu_available : Int
  trauma_available : Int
  has_power : Bool
  has_oxygen : Bool
  ed_wait_time_minutes : Option Int
  specialties : List String
  phone : Option String
deriving DecidableEq

/-- The facility dict built by `search_facilities`: the record plus the
`distance_km` key, which is present exactly when both user coordinates
were supplied. -/
structure RankedFacility where
  fac : HealthFacility
  distance_km : Option ℚ
deriving DecidableEq

/-- A `resources` row (`models.py`), restricted to the columns the pipeline
reads.  `total_capacity` is a nullable column. -/
structure Resource where
  name : String
  resource_type : String
  status : String
  latitude : ℚ
  longitude : ℚ
  district : String
  total_capacity : Option Int
  current_occupancy : Option Int
  contact_phone : Option String
deriving DecidableEq

/-- The resource dict built by `search_resources`. -/
structure RankedResource where
  res : Resource
  distance_km : Option ℚ
deriving DecidableEq

/-- An `incidents` row (`models.py`), restricted to the columns the pipeline
reads. -/
structure Incident where
  title : String
  incident_type : String
  severity : String
  latitude : ℚ
  longitude : ℚ
  district : String
  roads_affected : List String
  is_active : Bool
deriving DecidableEq

/-- The incident dict built by `get_active_incidents`. -/
structure RankedIncident where
  inc : Incident
  distance_km : Option ℚ
deriving DecidableEq

/-- The `WHERE` clause assembled by `search_facilities`, one conjunct per
entity key, in source order.  `entities.get("min_capacity")` is a Python
truthiness test, so a zero capacity adds no condition; the district is
matched case-insensitively as a substring of the district or the
governorate. -/
def facilityConditions (e : Entities) (f : HealthFacility) : Bool :=
  (match e.facility_type with
   | some t => f.facility_type == t
   | none => true) &&
  (match e.status with
   | some s => f.status == s
   | none => true) &&
  (!e.needs_oxygen || f.has_oxygen) &&
  (!e.needs_power || f.has_power) &&
  (!e.needs_trauma || decide (0 < f.trauma_available)) &&
  (match e.min_capacity with
   | some c => if c == 0 then true else decide (c ≤ f.available_beds)
   | none => true) &&
  (match e.district with
   | some d => substrOf (pyLower d) (pyLower f.district) ||
               substrOf (pyLower d) (pyLower f.governorate)
   | none => true)

/-- The `WHERE` clause assembled by `search_resources`.  The final conjunct
`Resource.status == ResourceStatus.AVAILABLE` is appended unconditionally;
a SQL comparison with a NULL `total_capacity` is not satisfied. -/
def resourceConditions (e : Entities) (r : Resource) : Bool :=
  (match e.resource_type with
   | some t => r.resource_type == t
   | none => true) &&
  (match e.district with
   | some d => substrOf (pyLower d) (pyLower r.district)
   | none => true) &&
  (match e.min_capacity with
   | some c =>
     if c == 0 then true
     else
       match r.total_capacity with
       | some tc => decide (c ≤ tc)
       | none => false
   | none => true) &&
  (r.status == "available")

/-- The facility sort key `lambda x: x.get("distance_km", 99999)` as a
boolean comparison for the stable sort. -/
def distLE (a b : RankedFacility) : Bool :=
  decide (a.distance_km.getD 99999 ≤ b.distance_km.getD 99999)

/-- The resource sort key `lambda x: x.get("distance_km", 99999)`. -/
def distLER (a b : RankedResource) : Bool :=
  decide (a.distance_km.getD 99999 ≤ b.distance_km.getD 99999)

/-- Function `search_facilities` of `rag_pipeline.py`.  `dist` abstracts the external
`geopy.distance.geodesic(...).km` call; the store query is the predicate
filter over the facility list.  With a user latitude the list is sorted by
distance (missing key sorts as 99999), filtered to the radius (default 50,
`.get("distance_km", 0)`), and truncated; otherwise it is sorted by available
beds descending and truncated. -/
def search_facilities (dist : Coord → Coord → ℚ) (db : List HealthFacility)
    (entities : Entities) (user_lat user_lon : Option ℚ) (limit : Nat) :
    List RankedFacility :=
  let facilities := db.filter (facilityConditions entities)
  let facility_list : List RankedFacility := facilities.map (fun f =>
    { fac := f
      distance_km :=
        match user_lat, user_lon with
        | some la, some lo => some (round2 (dist ⟨la, lo⟩ ⟨f.latitude, f.longitude⟩))
        | _, _ => none })
  match user_lat with
  | some _ =>
    let sorted := facility_list.mergeSort distLE
    let radius := entities.radius_km.getD 50
    let filtered := sorted.filter (fun f => decide (f.distance_km.getD 0 ≤ radius))
    filtered.take limit
  | none =>
    (facility_list.mergeSort (fun a b => decide (b.fac.available_beds ≤ a.fac.available_beds))).take limit

/-- The intermediate value of `search_facilities` with both coordinates
present: sorted by distance and filtered to the radius, before the `[:limit]`
truncation. -/
def search_facilities_within (dist : Coord → Coord → ℚ) (db : List HealthFacility)
    (entities : Entities) (la lo : ℚ) : List RankedFacility :=
  let facility_list : List RankedFacility := (db.filter (facilityConditions entities)).map
    (fun f => { fac := f, distance_km := some (round2 (dist ⟨la, lo⟩ ⟨f.latitude, f.longitude⟩)) })
  (facility_list.mergeSort distLE).filter
    (fun f => decide (f.distance_km.getD 0 ≤ entities.radius_km.getD 50))

/-- Function `search_resources` of `rag_pipeline.py`.  Sorting and radius filtering
happen only when a user latitude is present; the truncation always does. -/
def search_resources (dist : Coord → Coord → ℚ) (db : List Resource)
    (entities : Entities) (user_lat user_lon : Option ℚ) (limit : Nat) :
    List RankedResource :=
  let resources := db.filter (resourceConditions entities)
  let resource_list : List RankedResource := resources.map (fun r =>
    { res := r
      distance_km :=
        match user_lat, user_lon with
        | some la, some lo => some (round2 (dist ⟨la, lo⟩ ⟨r.latitude, r.longitude⟩))
        | _, _ => none })
  let resource_list : List RankedResource :=
    match user_lat with
    | some _ =>
      let sorted := resource_list.mergeSort distLER
      let radius := entities.radius_km.getD 50
      sorted.filter (fun r => decide (r.distance_km.getD 0 ≤ radius))
    | none => resource_list
  resource_list.take limit

/-- The intermediate value of `search_resources` with both coordinates
present, before the truncation. -/
def search_resources_within (dist : Coord → Coord → ℚ) (db : List Resource)
    (entities : Entities) (la lo : ℚ) : List RankedResource :=
  let resource_list : List RankedResource := (db.filter (resourceConditions entities)).map
    (fun r => { res := r, distance_km := some (round2 (dist ⟨la, lo⟩ ⟨r.latitude, r.longitude⟩)) })
  (resource_list.mergeSort distLER).filter
    (fun r => decide (r.distance_km.getD 0 ≤ entities.radius_km.getD 50))

/-- Function `get_active_incidents` of `rag_pipeline.py`: active incidents, optional
district filter, optional attached distance; no sorting, no truncation. -/
def get_active_incidents (dist : Coord → Coord → ℚ) (db : List Incident)
    (entities : Entities) (user_lat user_lon : Option ℚ) : List RankedIncident :=
  let incidents := db.filter (fun i =>
    i.is_active &&
    (match entities.district with
     | some d => substrOf (pyLower d) (pyLower i.district)
     | none => true))
  incidents.map (fun i =>
    { inc := i
      distance_km :=
        match user_lat, user_lon with
        | some la, some lo => some (round2 (dist ⟨la, lo⟩ ⟨i.latitude, i.longitude⟩))
        | _, _ => none })

/-- The aggregate dictionary returned by `get_statistics`. -/
structure Stats where
  total_facilities : Nat
  operational_facilities : Nat
  damaged_facilities : Nat
  total_beds : Int
  available_beds : Int
  total_resources : Nat
  total_shelters : Nat
  active_incidents : Nat
deriving DecidableEq

/-- Decimal rendering of a number inside an f-string.  Python renders the
float's shortest decimal form; the claims never inspect these characters, so
the rational's canonical rendering stands in for it. -/
def fmtQ (q : ℚ) : String := toString q

/-- The per-facility block of `build_context_prompt` (each `parts` list is
joined with newlines into one element of `context_parts`). -/
def contextFacilityBlock (f : RankedFacility) : String :=
  let parts := ["- **" ++ f.fac.name ++ "** (" ++ f.fac.facility_type ++ ")"]
  let parts := parts ++ ["  Status: " ++ f.fac.status]
  let parts := parts ++
    (match f.distance_km with
     | some d => ["  Distance: " ++ fmtQ d ++ " km"]
     | none => [])
  let parts := parts ++
    ["  Available beds: " ++ toString f.fac.available_beds ++ "/" ++ toString f.fac.total_beds]
  let parts := parts ++
    (if f.fac.trauma_available != 0 then
      ["  Trauma beds available: " ++ toString f.fac.trauma_available]
     else [])
  let parts := parts ++
    (if f.fac.icu_available != 0 then
      ["  ICU beds available: " ++ toString f.fac.icu_available]
     else [])
  let parts := parts ++
    ["  Power: " ++ (if f.fac.has_power then "Yes" else "No") ++
     ", Oxygen: " ++ (if f.fac.has_oxygen then "Yes" else "No")]
  let parts := parts ++
    (match f.fac.ed_wait_time_minutes with
     | some w => if w != 0 then ["  ED Wait time: " ++ toString w ++ " min"] else []
     | none => [])
  let parts := parts ++
    (if f.fac.specialties != [] then
      ["  Specialties: " ++ String.intercalate ", " f.fac.specialties]
     else [])
  let parts := parts ++
    (match f.fac.phone with
     | some p => if p != "" then ["  Contact: " ++ p] else []
     | none => [])
  String.intercalate "\n" parts

/-- The per-resource block of `build_context_prompt`. -/
def contextResourceBlock (r : RankedResource) : String :=
  let parts := ["- **" ++ r.res.name ++ "** (" ++ r.res.resource_type ++ ")"]
  let parts := parts ++ ["  Status: " ++ r.res.status]
  let parts := parts ++
    (match r.distance_km with
     | some d => ["  Distance: " ++ fmtQ d ++ " km"]
     | none => [])
  let parts := parts ++
    (match r.res.total_capacity with
     | some tc =>
       if tc != 0 then
         ["  Capacity: " ++ toString (r.res.current_occupancy.getD 0) ++ "/" ++ toString tc]
       else []
     | none => [])
  let parts := parts ++
    (match r.res.contact_phone with
     | some p => if p != "" then ["  Contact: " ++ p] else []
     | none => [])
  String.intercalate "\n" parts

/-- The per-incident block of `build_context_prompt`. -/
def contextIncidentBlock (i : RankedIncident) : String :=
  let parts := ["- **" ++ i.inc.title ++ "** (Severity: " ++ i.inc.severity ++ ")"]
  let parts := parts ++ ["  Type: " ++ i.inc.incident_type]
  let parts := parts ++
    (match i.distance_km with
     | some d => ["  Distance: " ++ fmtQ d ++ " km"]
     | none => [])
  let parts := parts ++
    (if i.inc.roads_affected != [] then
      ["  Roads affected: " ++ String.intercalate ", " i.inc.roads_affected]
     else [])
  String.intercalate "\n" parts

/-- The statistics section of `build_context_prompt`. -/
def contextStatsLines (s : Stats) : List String :=
  ["\n## Current Statistics",
   "- Total facilities: " ++ toString s.total_facilities,
   "- Operational: " ++ toString s.operational_facilities,
   "- Damaged: " ++ toString s.damaged_facilities,
   "- Total beds: " ++ toString s.total_beds,
   "- Available beds: " ++ toString s.available_beds,
   "- Active incidents: " ++ toString s.active_incidents]

/-- Function `build_context_prompt` of `rag_pipeline.py`: at most 10 facilities, 10
resources, 5 incidents and the statistics lines, each section present only
when its input is non-empty (`statistics` is `none` for Python's empty
dict); the empty case yields the fixed sentinel string. -/
def build_context_prompt (facilities : List RankedFacility)
    (resources : List RankedResource) (incidents : List RankedIncident)
    (statistics : Option Stats) : String :=
  let context_parts : List String := []
  let context_parts := context_parts ++
    (if facilities != [] then
      ["## Available Health Facilities Data"] ++ (facilities.take 10).map contextFacilityBlock
     else [])
  let context_parts := context_parts ++
    (if resources != [] then
      ["\n## Available Resources Data"] ++ (resources.take 10).map contextResourceBlock
     else [])
  let context_parts := context_parts ++
    (if incidents != [] then
      ["\n## Active Incidents"] ++ (incidents.take 5).map contextIncidentBlock
     else [])
  let context_parts := context_parts ++
    (match statistics with
     | some s => contextStatsLines s
     | none => [])
  if context_parts != [] then String.intercalate "\n" context_parts
  else "No relevant data found in the database."

/-- Outcome of the optional remote OpenAI call of `generate_llm_response`:
the key is unconfigured (absent or the placeholder), the call succeeded with
some answer text, or the call raised. -/
inductive RemoteOutcome where
  | unconfigured
  | success (answer : String)
  | failure
deriving DecidableEq

/-- Function `_generate_fallback_response` of `rag_pipeline.py` (the leading
underscore of the Python name is dropped): the fixed apology when the
sentinel occurs in the context, otherwise the template echoing the
context. -/
def generate_fallback_response (_query context _language : String) : String :=
  if substrOf "No relevant data found" context then
    "I couldn\x27t find specific data matching your query. Please try refining your search with more specific terms, or check the available categories: hospitals, clinics, shelters, ambulances."
  else
    "Based on the available data for your query:\n\n" ++ context ++
    "\n\nNote: This response was generated from direct data retrieval. For more detailed analysis, ensure the AI model API key is configured."

/-- Function `generate_llm_response` of `rag_pipeline.py`: fallback with confidence
0.75 when no key is configured, the model's answer with confidence 0.9/0.7
split at context length 200 on success, fallback with confidence 0.6 when
the call raises. -/
def generate_llm_response (query context language : String)
    (outcome : RemoteOutcome) : String × ℚ :=
  match outcome with
  | .unconfigured => (generate_fallback_response query context language, 0.75)
  | .success answer => (answer, if context.length > 200 then 0.9 else 0.7)
  | .failure => (generate_fallback_response query context language, 0.6)

/-- The validated `QueryRequest` of `schemas.py`, restricted to the fields
the pipeline reads. -/
structure QueryRequest where
  query : String
  latitude : Option ℚ
  longitude : Option ℚ
  language : String
  max_results : Nat
deriving DecidableEq

/-- A `QuerySource` descriptor of `schemas.py`. -/
structure QuerySource where
  name : String
  freshness : String
  record_count : Nat
deriving DecidableEq

/-- A value of the heterogeneous `details` payload of a map marker. -/
inductive JVal where
  | jnum (q : ℚ)
  | jint (n : Int)
  | jbool (b : Bool)
  | jnull
deriving DecidableEq

/-- A `MapMarker` of `schemas.py`. -/
structure MapMarker where
  latitude : ℚ
  longitude : ℚ
  label : String
  type : String
  status : String
  details : List (String × JVal)
deriving DecidableEq

/-- A `QueryLog` row (`models.py`), restricted to the fields `process_query`
fills. -/
structure QueryLog where
  id : Nat
  user_id : Option String
  query_text : String
  query_type : String
  entities : Entities
  response_text : String
  confidence_score : ℚ
  data_sources : List String
  response_time_ms : Nat
deriving DecidableEq

/-- The `QueryResponse` of `schemas.py` (identifiers and the timestamp are
opaque values generated outside the pipeline's logic, modelled as numbers
passed in). -/
structure QueryResponse where
  query_id : Nat
  query : String
  answer : String
  confidence_score : ℚ
  data_sources : List QuerySource
  map_markers : List MapMarker
  statistics : Option Stats
  response_time_ms : Nat
  timestamp : Nat
  language : String
deriving DecidableEq

/-- The record store: the three collections the pipeline reads and the audit
table it appends to. -/
structure Database where
  health_facilities : List HealthFacility
  resources : List Resource
  incidents : List Incident
  query_logs : List QueryLog
deriving DecidableEq

/-- Function `get_statistics` of `rag_pipeline.py`: counts and bed sums over the
store (`scalar() or 0` makes the empty sums zero, as `List.sum` does). -/
def get_statistics (db : Database) : Stats :=
  { total_facilities := db.health_facilities.length
    operational_facilities := (db.health_facilities.filter (fun f => f.status == "operational")).length
    damaged_facilities := (db.health_facilities.filter (fun f => f.status == "damaged")).length
    total_beds := (db.health_facilities.map (fun f => f.total_beds)).sum
    available_beds := (db.health_facilities.map (fun f => f.available_beds)).sum
    total_resources := db.resources.length
    total_shelters := (db.resources.filter (fun r => r.resource_type == "shelter")).length
    active_incidents := (db.incidents.filter (fun i => i.is_active)).length }

/-- The map marker built from a retrieved facility in `process_query`. -/
def facilityMarker (f : RankedFacility) : MapMarker :=
  { latitude := f.fac.latitude
    longitude := f.fac.longitude
    label := f.fac.name
    type := f.fac.facility_type
    status := f.fac.status
    details := [("available_beds", .jint f.fac.available_beds),
                ("has_power", .jbool f.fac.has_power),
                ("has_oxygen", .jbool f.fac.has_oxygen),
                ("distance_km", match f.distance_km with
                                | some d => .jnum d
                                | none => .jnull)] }

/-- The map marker built from a retrieved resource in `process_query`. -/
def resourceMarker (r : RankedResource) : MapMarker :=
  { latitude := r.res.latitude
    longitude := r.res.longitude
    label := r.res.name
    type := r.res.resource_type
    status := r.res.status
    details := [("capacity", match r.res.total_capacity with
                             | some c => .jint c
                             | none => .jnull),
                ("occupancy", match r.res.current_occupancy with
                              | some c => .jint c
                              | none => .jnull),
                ("distance_km", match r.distance_km with
                                | some d => .jnum d
                                | none => .jnull)] }

/-- Function `process_query` of `rag_pipeline.py`, end to end.  `dist` and `llm`
abstract the two external calls; `elapsed_ms`, `query_id` and `timestamp`
are the clock and uuid values.  `audit_ok` is false when building or adding
the `QueryLog` raises: the `try/except` swallows the failure (it is only
logged), so the audit row is simply not added. -/
def process_query (dist : Coord → Coord → ℚ) (req : QueryRequest) (db : Database)
    (user_id : Option String) (llm : RemoteOutcome) (elapsed_ms : Nat)
    (query_id : Nat) (timestamp : Nat) (audit_ok : Bool) :
    QueryResponse × Database :=
  let query_type := classify_query req.query
  let entities := extract_entities req.query
  let facilities :=
    if query_type == "facility_search" || query_type == "geographic_search" ||
       query_type == "status_query" then
      search_facilities dist db.health_facilities entities req.latitude req.longitude req.max_results
    else []
  let resources :=
    if query_type == "resource_search" || query_type == "geographic_search" then
      search_resources dist db.resources entities req.latitude req.longitude req.max_results
    else []
  let incidents :=
    if query_type == "geographic_search" || query_type == "status_query" then
      get_active_incidents dist db.incidents entities req.latitude req.longitude
    else []
  let statistics : Option Stats :=
    if query_type == "statistical" then some (get_statistics db) else none
  let facilities :=
    if query_type == "statistical" then
      search_facilities dist db.health_facilities entities req.latitude req.longitude 5
    else facilities
  let context := build_context_prompt facilities resources incidents statistics
  let ans := generate_llm_response req.query context req.language llm
  let map_markers := facilities.map facilityMarker ++ resources.map resourceMarker
  let db' : Database :=
    if audit_ok then
      { db with query_logs := db.query_logs ++
          [{ id := query_id
             user_id := user_id
             query_text := req.query
             query_type := query_type
             entities := entities
             response_text := ans.1
             confidence_score := ans.2
             data_sources := ["health_facilities", "resources", "incidents"]
             response_time_ms := elapsed_ms }] }
    else db
  ({ query_id := query_id
     query := req.query
     answer := ans.1
     confidence_score := ans.2
     data_sources := [⟨"Health Facilities DB", "Real-time", facilities.length⟩,
                      ⟨"Resources DB", "Real-time", resources.length⟩,
                      ⟨"Incidents DB", "Real-time", incidents.length⟩]
     map_markers := map_markers
     statistics := statistics
     response_time_ms := elapsed_ms
     timestamp := timestamp
     language := req.language }, db')

/-- Python's `math.radians` / SQL `func.radians`: degrees to radians. -/
noncomputable def radiansR (x : ℚ) : ℝ := (x : ℝ) * Real.pi / 180

/-- The haversine great-circle formula with Earth radius 6371 km, translated
from `haversine_distance_sql` in the source — the formula the spec names for
the ranking distance.  (The running code delegates the ranking distance to
the external `geopy` geodesic routine, which this definition models at the
level the spec describes.) -/
noncomputable def haversine_distance (lat1 lon1 lat2 lon2 : ℚ) : ℝ :=
  6371 * 2 * Real.arcsin (Real.sqrt
    (Real.sin ((radiansR lat2 - radiansR lat1) / 2) ^ 2 +
     Real.cos (radiansR lat1) * Real.cos (radiansR lat2) *
       Real.sin ((radiansR lon2 - radiansR lon1) / 2) ^ 2))

/-- A concrete, computable distance function standing in for the external
geodesic call when the theorems are instantiated on sample data. -/
def flatDist (a b : Coord) : ℚ :=
  |a.lat - b.lat| + |a.lon - b.lon|

/-- A sample facility row used to instantiate the theorems. -/
def testFacility : HealthFacility :=
  { name := "Palestine Medical Complex", facility_type := "hospital",
    status := "operational", latitude := 32, longitude := 35,
    district := "Ramallah", governorate := "Ramallah and Al-Bireh",
    total_beds := 250, available_beds := 40, icu_available := 3,
    trauma_available := 2, has_power := true, has_oxygen := true,
    ed_wait_time_minutes := some 35, specialties := ["surgery"],
    phone := some "02-2982222" }

/-- A sample resource row used to instantiate the theorems. -/
def testResource : Resource :=
  { name := "Ramallah Shelter", resource_type := "shelter",
    status := "available", latitude := 32, longitude := 35,
    district := "Ramallah", total_capacity := some 200,
    current_occupancy := some 50, contact_phone := some "0599-000000" }

theorem pipeline_mem {α : Type} {l : List α} {le : α → α → Bool} {p : α → Bool}
    {n : Nat} {x : α} (hx : x ∈ ((l.mergeSort le).filter p).take n) :
    x ∈ l ∧ p x = true := by
  have h1 : x ∈ (l.mergeSort le).filter p := (List.take_sublist n _).subset hx
  have h2 := List.mem_filter.1 h1
  exact ⟨(List.mergeSort_perm l le).mem_iff.1 h2.1, h2.2⟩

theorem pipeline_pairwise {α : Type} (l : List α) (le : α → α → Bool) (p : α → Bool)
    (n : Nat) (htrans : ∀ a b c, le a b = true → le b c = true → le a c = true)
    (htotal : ∀ a b, (le a b || le b a) = true) :
    (((l.mergeSort le).filter p).take n).Pairwise (fun a b => le a b = true) :=
  ((List.sorted_mergeSort htrans htotal l).sublist (List.filter_sublist _)).sublist
    (List.take_sublist n _)

theorem pipeline_length {α : Type} (l : List α) (le : α → α → Bool) (p : α → Bool)
    (n : Nat) : (((l.mergeSort le).filter p).take n).length ≤ n := by
  simp [List.length_take]

theorem pipeline_mem_of {α : Type} {l : List α} {le : α → α → Bool} {p : α → Bool}
    {n : Nat} {x : α} (hx : x ∈ l) (hp : p x = true)
    (hlen : ((l.mergeSort le).filter p).length ≤ n) :
    x ∈ ((l.mergeSort le).filter p).take n := by
  rw [List.take_of_length_le hlen]
  exact List.mem_filter.2 ⟨(List.mergeSort_perm l le).mem_iff.2 hx, hp⟩

theorem distLE_trans : ∀ a b c, distLE a b = true → distLE b c = true → distLE a c = true := by
  intro a b c hab hbc
  simp only [distLE, decide_eq_true_eq] at *
  exact le_trans hab hbc

theorem distLE_total : ∀ a b, (distLE a b || distLE b a) = true := by
  intro a b
  simp only [distLE, Bool.or_eq_true, decide_eq_true_eq]
  exact le_total _ _

theorem distLER_trans : ∀ a b c, distLER a b = true → distLER b c = true → distLER a c = true := by
  intro a b c hab hbc
  simp only [distLER, decide_eq_true_eq] at *
  exact le_trans hab hbc

theorem distLER_total : ∀ a b, (distLER a b || distLER b a) = true := by
  intro a b
  simp only [distLER, Bool.or_eq_true, decide_eq_true_eq]
  exact le_total _ _

theorem search_facilities_some (dist : Coord → Coord → ℚ) (db : List HealthFacility)
    (e : Entities) (la lo : ℚ) (limit : Nat) :
    search_facilities dist db e (some la) (some lo) limit =
      (search_facilities_within dist db e la lo).take limit := rfl

theorem search_facilities_within_def (dist : Coord → Coord → ℚ) (db : List HealthFacility)
    (e : Entities) (la lo : ℚ) :
    search_facilities_within dist db e la lo =
      (((db.filter (facilityConditions e)).map
          (fun f => (⟨f, some (round2 (dist ⟨la, lo⟩ ⟨f.latitude, f.longitude⟩))⟩ : RankedFacility))).mergeSort
          distLE).filter
        (fun f => decide (f.distance_km.getD 0 ≤ e.radius_km.getD 50)) := rfl

theorem search_resources_some (dist : Coord → Coord → ℚ) (db : List Resource)
    (e : Entities) (la lo : ℚ) (limit : Nat) :
    search_resources dist db e (some la) (some lo) limit =
      (search_resources_within dist db e la lo).take limit := rfl

theorem search_resources_within_def (dist : Coord → Coord → ℚ) (db : List Resource)
    (e : Entities) (la lo : ℚ) :
    search_resources_within dist db e la lo =
      (((db.filter (resourceConditions e)).map
          (fun r => (⟨r, some (round2 (dist ⟨la, lo⟩ ⟨r.latitude, r.longitude⟩))⟩ : RankedResource))).mergeSort
          distLER).filter
        (fun r => decide (r.distance_km.getD 0 ≤ e.radius_km.getD 50)) := rfl

theorem search_facilities_mem_shape {dist : Coord → Coord → ℚ} {db : List HealthFacility}
    {e : Entities} {la lo : ℚ} {limit : Nat} {r : RankedFacility}
    (hr : r ∈ search_facilities dist db e (some la) (some lo) limit) :
    r.fac ∈ db ∧ facilityConditions e r.fac = true ∧
    r.distance_km = some (round2 (dist ⟨la, lo⟩ ⟨r.fac.latitude, r.fac.longitude⟩)) ∧
    round2 (dist ⟨la, lo⟩ ⟨r.fac.latitude, r.fac.longitude⟩) ≤ e.radius_km.getD 50 := by
  rw [search_facilities_some, search_facilities_within_def] at hr
  obtain ⟨hrL, hp⟩ := pipeline_mem hr
  obtain ⟨f, hf, rfl⟩ := List.mem_map.1 hrL
  obtain ⟨hfdb, hcond⟩ := List.mem_filter.1 hf
  simp only [decide_eq_true_eq, Option.getD_some] at hp
  exact ⟨hfdb, hcond, rfl, hp⟩

theorem search_resources_mem_shape {dist : Coord → Coord → ℚ} {db : List Resource}
    {e : Entities} {la lo : ℚ} {limit : Nat} {r : RankedResource}
    (hr : r ∈ search_resources dist db e (some la) (some lo) limit) :
    r.res ∈ db ∧ resourceConditions e r.res = true ∧
    r.distance_km = some (round2 (dist ⟨la, lo⟩ ⟨r.res.latitude, r.res.longitude⟩)) ∧
    round2 (dist ⟨la, lo⟩ ⟨r.res.latitude, r.res.longitude⟩) ≤ e.radius_km.getD 50 := by
  rw [search_resources_some, search_resources_within_def] at hr
  obtain ⟨hrL, hp⟩ := pipeline_mem hr
  obtain ⟨x, hx, rfl⟩ := List.mem_map.1 hrL
  obtain ⟨hxdb, hcond⟩ := List.mem_filter.1 hx
  simp only [decide_eq_true_eq, Option.getD_some] at hp
  exact ⟨hxdb, hcond, rfl, hp⟩

theorem search_facilities_mem_intro {dist : Coord → Coord → ℚ} {db : List HealthFacility}
    {e : Entities} {la lo : ℚ} {limit : Nat} {f : HealthFacility}
    (hf : f ∈ db) (hcond : facilityConditions e f = true)
    (hrad : round2 (dist ⟨la, lo⟩ ⟨f.latitude, f.longitude⟩) ≤ e.radius_km.getD 50)
    (hlen : (search_facilities_within dist db e la lo).length ≤ limit) :
    (⟨f, some (round2 (dist ⟨la, lo⟩ ⟨f.latitude, f.longitude⟩))⟩ : RankedFacility) ∈
      search_facilities dist db e (some la) (some lo) limit := by
  rw [search_facilities_within_def] at hlen
  rw [search_facilities_some, search_facilities_within_def]
  refine pipeline_mem_of (List.mem_map.2 ⟨f, List.mem_filter.2 ⟨hf, hcond⟩, rfl⟩) ?_ hlen
  simpa using hrad

theorem search_resources_mem_intro {dist : Coord → Coord → ℚ} {db : List Resource}
    {e : Entities} {la lo : ℚ} {limit : Nat} {r : Resource}
    (hr : r ∈ db) (hcond : resourceConditions e r = true)
    (hrad : round2 (dist ⟨la, lo⟩ ⟨r.latitude, r.longitude⟩) ≤ e.radius_km.getD 50)
    (hlen : (search_resources_within dist db e la lo).length ≤ limit) :
    (⟨r, some (round2 (dist ⟨la, lo⟩ ⟨r.latitude, r.longitude⟩))⟩ : RankedResource) ∈
      search_resources dist db e (some la) (some lo) limit := by
  rw [search_resources_within_def] at hlen
  rw [search_resources_some, search_resources_within_def]
  refine pipeline_mem_of (List.mem_map.2 ⟨r, List.mem_filter.2 ⟨hr, hcond⟩, rfl⟩) ?_ hlen
  simpa using hrad

theorem search_facilities_sorted (dist : Coord → Coord → ℚ) (db : List HealthFacility)
    (e : Entities) (la lo : ℚ) (limit : Nat) :
    ((search_facilities dist db e (some la) (some lo) limit).map
      (fun r => r.distance_km.getD 0)).Sorted (· ≤ ·) := by
  have hpw : (search_facilities dist db e (some la) (some lo) limit).Pairwise
      (fun a b => distLE a b = true) := by
    rw [search_facilities_some, search_facilities_within_def]
    exact pipeline_pairwise _ distLE _ limit distLE_trans distLE_total
  refine List.pairwise_map.2 (List.Pairwise.imp_of_mem ?_ hpw)
  intro a b ha hb hab
  obtain ⟨_, _, hda, _⟩ := search_facilities_mem_shape ha
  obtain ⟨_, _, hdb, _⟩ := search_facilities_mem_shape hb
  simp only [distLE, decide_eq_true_eq, hda, hdb, Option.getD_some] at hab ⊢
  exact hab

theorem search_resources_sorted (dist : Coord → Coord → ℚ) (db : List Resource)
    (e : Entities) (la lo : ℚ) (limit : Nat) :
    ((search_resources dist db e (some la) (some lo) limit).map
      (fun r => r.distance_km.getD 0)).Sorted (· ≤ ·) := by
  have hpw : (search_resources dist db e (some la) (some lo) limit).Pairwise
      (fun a b => distLER a b = true) := by
    rw [search_resources_some, search_resources_within_def]
    exact pipeline_pairwise _ distLER _ limit distLER_trans distLER_total
  refine List.pairwise_map.2 (List.Pairwise.imp_of_mem ?_ hpw)
  intro a b ha hb hab
  obtain ⟨_, _, hda, _⟩ := search_resources_mem_shape ha
  obtain ⟨_, _, hdb, _⟩ := search_resources_mem_shape hb
  simp only [distLER, decide_eq_true_eq, hda, hdb, Option.getD_some] at hab ⊢
  exact hab

/-- Claim C1: with a requester location, every record returned by the
facility and the resource retriever carries a computed `distance_km` that is
at most the requested radius (default 50 when none was extracted), a record
whose distance equals the radius passes the inclusive filter and is returned
whenever the truncation has room for the whole within-radius list, the list
is sorted non-decreasingly in `distance_km`, and at most `limit` records are
returned. -/
theorem retrieval_radius_sort_limit (dist : Coord → Coord → ℚ)
    (fdb : List HealthFacility) (rdb : List Resource) (e : Entities)
    (la lo : ℚ) (limit : Nat) :
    (∀ r ∈ search_facilities dist fdb e (some la) (some lo) limit,
       ∃ q, r.distance_km = some q ∧ q ≤ e.radius_km.getD 50) ∧
    ((search_facilities dist fdb e (some la) (some lo) limit).map
       (fun r => r.distance_km.getD 0)).Sorted (· ≤ ·) ∧
    (search_facilities dist fdb e (some la) (some lo) limit).length ≤ limit ∧
    (∀ f ∈ fdb, facilityConditions e f = true →
       round2 (dist ⟨la, lo⟩ ⟨f.latitude, f.longitude⟩) = e.radius_km.getD 50 →
       (search_facilities_within dist fdb e la lo).length ≤ limit →
       (⟨f, some (round2 (dist ⟨la, lo⟩ ⟨f.latitude, f.longitude⟩))⟩ : RankedFacility) ∈
         search_facilities dist fdb e (some la) (some lo) limit) ∧
    (∀ r ∈ search_resources dist rdb e (some la) (some lo) limit,
       ∃ q, r.distance_km = some q ∧ q ≤ e.radius_km.getD 50) ∧
    ((search_resources dist rdb e (some la) (some lo) limit).map
       (fun r => r.distance_km.getD 0)).Sorted (· ≤ ·) ∧
    (search_resources dist rdb e (some la) (some lo) limit).length ≤ limit ∧
    (∀ r ∈ rdb, resourceConditions e r = true →
       round2 (dist ⟨la, lo⟩ ⟨r.latitude, r.longitude⟩) = e.radius_km.getD 50 →
       (search_resources_within dist rdb e la lo).length ≤ limit →
       (⟨r, some (round2 (dist ⟨la, lo⟩ ⟨r.latitude, r.longitude⟩))⟩ : RankedResource) ∈
         search_resources dist rdb e (some la) (some lo) limit) := by
  refine ⟨?_, search_facilities_sorted dist fdb e la lo limit, ?_, ?_, ?_,
    search_resources_sorted dist rdb e la lo limit, ?_, ?_⟩
  · intro r hr
    obtain ⟨_, _, hd, hle⟩ := search_facilities_mem_shape hr
    exact ⟨_, hd, hle⟩
  · rw [search_facilities_some, search_facilities_within_def]
    exact pipeline_length _ distLE _ limit
  · intro f hf hcond hrad hlen
    exact search_facilities_mem_intro hf hcond (le_of_eq hrad) hlen
  · intro r hr
    obtain ⟨_, _, hd, hle⟩ := search_resources_mem_shape hr
    exact ⟨_, hd, hle⟩
  · rw [search_resources_some, search_resources_within_def]
    exact pipeline_length _ distLER _ limit
  · intro r hr hcond hrad hlen
    exact search_resources_mem_intro hr hcond (le_of_eq hrad) hlen

theorem round2_zero : round2 0 = 0 := by
  simp only [round2]
  norm_num

theorem search_facilities_within_length_le (dist : Coord → Coord → ℚ)
    (db : List HealthFacility) (e : Entities) (la lo : ℚ) :
    (search_facilities_within dist db e la lo).length ≤ db.length := by
  rw [search_facilities_within_def]
  refine le_trans (List.length_filter_le _ _) ?_
  rw [(List.mergeSort_perm _ distLE).length_eq, List.length_map]
  exact List.length_filter_le _ _

theorem search_resources_none (dist : Coord → Coord → ℚ) (db : List Resource)
    (e : Entities) (user_lon : Option ℚ) (limit : Nat) :
    search_resources dist db e none user_lon limit =
      ((db.filter (resourceConditions e)).map
        (fun r => (⟨r, none⟩ : RankedResource))).take limit := rfl

theorem search_resources_some_none (dist : Coord → Coord → ℚ) (db : List Resource)
    (e : Entities) (la : ℚ) (limit : Nat) :
    search_resources dist db e (some la) none limit =
      ((((db.filter (resourceConditions e)).map
          (fun r => (⟨r, none⟩ : RankedResource))).mergeSort distLER).filter
        (fun r => decide (r.distance_km.getD 0 ≤ e.radius_km.getD 50))).take limit := rfl

theorem search_resources_mem_cond {dist : Coord → Coord → ℚ} {db : List Resource}
    {e : Entities} {user_lat user_lon : Option ℚ} {limit : Nat} {r : RankedResource}
    (hr : r ∈ search_resources dist db e user_lat user_lon limit) :
    r.res ∈ db ∧ resourceConditions e r.res = true := by
  cases user_lat with
  | none =>
    rw [search_resources_none] at hr
    have hr' := (List.take_sublist _ _).subset hr
    obtain ⟨x, hx, rfl⟩ := List.mem_map.1 hr'
    exact ⟨(List.mem_filter.1 hx).1, (List.mem_filter.1 hx).2⟩
  | some la =>
    cases user_lon with
    | none =>
      rw [search_resources_some_none] at hr
      obtain ⟨hrl, _⟩ := pipeline_mem hr
      obtain ⟨x, hx, rfl⟩ := List.mem_map.1 hrl
      exact ⟨(List.mem_filter.1 hx).1, (List.mem_filter.1 hx).2⟩
    | some lo =>
      obtain ⟨h1, h2, _, _⟩ := search_resources_mem_shape hr
      exact ⟨h1, h2⟩

/-- Claim C10: `search_resources` appends the `status == AVAILABLE` predicate
unconditionally, so every record it returns — whatever the entities and the
requester location — has status "available"; resources that are in use,
depleted or in maintenance are never returned. -/
theorem resources_only_available (dist : Coord → Coord → ℚ) (db : List Resource)
    (e : Entities) (user_lat user_lon : Option ℚ) (limit : Nat) :
    ∀ r ∈ search_resources dist db e user_lat user_lon limit,
      r.res.status = "available" := by
  intro r hr
  have hcond := (search_resources_mem_cond hr).2
  simp only [resourceConditions, Bool.and_eq_true, beq_iff_eq] at hcond
  exact hcond.2

/-- Witness for C10 on a one-row store. -/
theorem resources_only_available_witness :
    (⟨testResource, none⟩ : RankedResource).res.status = "available" :=
  resources_only_available flatDist [testResource] {} none none 10
    ⟨testResource, none⟩ (by decide)

theorem haversine_symm (lat1 lon1 lat2 lon2 : ℚ) :
    haversine_distance lat1 lon1 lat2 lon2 = haversine_distance lat2 lon2 lat1 lon1 := by
  unfold haversine_distance
  have hs : ∀ x y : ℝ, Real.sin ((x - y) / 2) ^ 2 = Real.sin ((y - x) / 2) ^ 2 := by
    intro x y
    have h : (x - y) / 2 = -((y - x) / 2) := by ring
    rw [h, Real.sin_neg]
    ring
  rw [hs (radiansR lat2) (radiansR lat1), hs (radiansR lon2) (radiansR lon1),
    mul_comm (Real.cos (radiansR lat1)) (Real.cos (radiansR lat2))]

theorem haversine_self (lat lon : ℚ) : haversine_distance lat lon lat lon = 0 := by
  unfold haversine_distance
  simp [sub_self, Real.sin_zero, Real.sqrt_zero, Real.arcsin_zero]

/-- Claim C9: the spec's ranking distance (the haversine formula that
`haversine_distance_sql` spells out in the source, Earth radius 6371 km) is
symmetric and zero on identical points, and a requester standing exactly at
a record's coordinates with an extracted radius of 0 still receives that
record, with distance 0.0 — for any distance function that vanishes on
identical points, as the runtime geodesic does. -/
theorem haversine_symm_zero_inclusion :
    (∀ lat1 lon1 lat2 lon2 : ℚ,
       haversine_distance lat1 lon1 lat2 lon2 = haversine_distance lat2 lon2 lat1 lon1) ∧
    (∀ lat lon : ℚ, haversine_distance lat lon lat lon = 0) ∧
    (∀ (dist : Coord → Coord → ℚ) (fdb : List HealthFacility) (e : Entities)
       (la lo : ℚ) (limit : Nat) (f : HealthFacility),
       f ∈ fdb → facilityConditions e f = true →
       dist ⟨la, lo⟩ ⟨f.latitude, f.longitude⟩ = 0 →
       e.radius_km = some 0 →
       (search_facilities_within dist fdb e la lo).length ≤ limit →
       (⟨f, some 0⟩ : RankedFacility) ∈
         search_facilities dist fdb e (some la) (some lo) limit) := by
  refine ⟨haversine_symm, haversine_self, ?_⟩
  intro dist fdb e la lo limit f hf hcond hd hrad hlen
  have h0 : round2 (dist ⟨la, lo⟩ ⟨f.latitude, f.longitude⟩) = 0 := by
    rw [hd, round2_zero]
  have hmem := search_facilities_mem_intro hf hcond ?_ hlen
  · rw [h0] at hmem
    exact hmem
  · rw [h0, hrad]
    simp

/-- Witness for C9: a requester at the sample facility's coordinates with
radius 0 receives it at distance 0. -/
theorem haversine_symm_zero_inclusion_witness :
    (⟨testFacility, some 0⟩ : RankedFacility) ∈
      search_facilities flatDist [testFacility] { radius_km := some 0 }
        (some 32) (some 35) 10 :=
  haversine_symm_zero_inclusion.2.2 flatDist [testFacility] { radius_km := some 0 }
    32 35 10 testFacility (by simp) (by decide)
    (by simp [flatDist, testFacility]) rfl
    (le_trans (search_facilities_within_length_le _ _ _ _ _) (by decide))

theorem haversine_zero_one :
    haversine_distance 0 0 1 0 = 6371 * 2 * (Real.pi / 360) := by
  unfold haversine_distance radiansR
  have h0 : ((0 : ℚ) : ℝ) * Real.pi / 180 = 0 := by norm_num
  have h1 : ((1 : ℚ) : ℝ) * Real.pi / 180 = Real.pi / 180 := by norm_num
  rw [h0, h1]
  have hpi := Real.pi_pos
  have hs : Real.sqrt (Real.sin ((Real.pi / 180 - 0) / 2) ^ 2 +
      Real.cos 0 * Real.cos (Real.pi / 180) * Real.sin ((0 - 0) / 2) ^ 2) =
      Real.sin (Real.pi / 360) := by
    have hd : (Real.pi / 180 - 0) / 2 = Real.pi / 360 := by ring
    rw [hd]
    simp only [sub_zero, sub_self, zero_div, Real.sin_zero, Real.cos_zero, one_mul,
      ne_eq, OfNat.ofNat_ne_zero, not_false_eq_true, zero_pow, mul_zero, add_zero]
    exact Real.sqrt_sq (Real.sin_nonneg_of_nonneg_of_le_pi (by positivity) (by linarith))
  rw [hs, Real.arcsin_sin (by linarith) (by linarith)]

/-- Claim C5 counterexample: the value the code attaches as `distance_km` is
a float rounded to two decimals — a rational number — while the haversine
great-circle distance between the requester (0, 0) and a record at (1, 0) is
6371·π/180, an irrational number; so no run of the code attaches the exact
haversine distance there, whatever the external geodesic call returns. -/
theorem attached_distance_not_haversine :
    ¬ ∃ q : ℚ, (round2 q : ℝ) = haversine_distance 0 0 1 0 := by
  rintro ⟨q, hq⟩
  rw [haversine_zero_one] at hq
  have hirr : Irrational (6371 * 2 * (Real.pi / 360)) := by
    have h : 6371 * 2 * (Real.pi / 360) = ((6371 / 180 : ℚ) : ℝ) * Real.pi := by
      push_cast
      ring
    rw [h]
    exact irrational_pi.rat_mul (by norm_num)
  exact hirr ⟨round2 q, hq⟩

/-- Claim C5 amended: with a requester location, the `distance_km` attached
to every retrieved facility and resource equals the externally computed
geodesic distance rounded to two decimals (not the exact haversine value). -/
theorem attached_distance_rounded (dist : Coord → Coord → ℚ)
    (fdb : List HealthFacility) (rdb : List Resource) (e : Entities)
    (la lo : ℚ) (limit : Nat) :
    (∀ r ∈ search_facilities dist fdb e (some la) (some lo) limit,
       r.distance_km = some (round2 (dist ⟨la, lo⟩ ⟨r.fac.latitude, r.fac.longitude⟩))) ∧
    (∀ r ∈ search_resources dist rdb e (some la) (some lo) limit,
       r.distance_km = some (round2 (dist ⟨la, lo⟩ ⟨r.res.latitude, r.res.longitude⟩))) := by
  constructor
  · intro r hr
    exact (search_facilities_mem_shape hr).2.2.1
  · intro r hr
    exact (search_resources_mem_shape hr).2.2.1

/-- Witness for the amended C5 on a one-row store. -/
theorem attached_distance_rounded_witness :
    (⟨testFacility,
       some (round2 (flatDist ⟨32, 35⟩ ⟨testFacility.latitude, testFacility.longitude⟩))⟩ :
       RankedFacility).distance_km =
      some (round2 (flatDist ⟨32, 35⟩ ⟨testFacility.latitude, testFacility.longitude⟩)) :=
  (attached_distance_rounded flatDist [testFacility] [] {} 32 35 10).1 _
    (search_facilities_mem_intro (by simp) (by decide)
      (by simp [flatDist, testFacility, round2_zero])
      (le_trans (search_facilities_within_length_le _ _ _ _ _) (by decide)))

theorem bestOf_le (s : String × Nat) (rest : List (String × Nat)) :
    s.2 ≤ (bestOf s rest).2 ∧ ∀ p ∈ rest, p.2 ≤ (bestOf s rest).2 := by
  induction rest generalizing s with
  | nil => exact ⟨le_refl _, by simp⟩
  | cons p t ih =>
    simp only [bestOf]
    obtain ⟨h1, h2⟩ := ih (if s.2 < p.2 then p else s)
    constructor
    · by_cases hc : s.2 < p.2
      · rw [if_pos hc] at h1 ⊢
        exact le_trans (le_of_lt hc) h1
      · rw [if_neg hc] at h1 ⊢
        exact h1
    · intro x hx
      rcases List.mem_cons.1 hx with rfl | hx
      · by_cases hc : s.2 < x.2
        · rw [if_pos hc] at h1 ⊢
          exact h1
        · rw [if_neg hc] at h1 ⊢
          exact le_trans (le_of_not_lt hc) h1
      · exact h2 x hx

theorem bestOf_mem (s : String × Nat) (rest : List (String × Nat)) :
    bestOf s rest ∈ s :: rest := by
  induction rest generalizing s with
  | nil => simp [bestOf]
  | cons p t ih =>
    simp only [bestOf]
    have h := ih (if s.2 < p.2 then p else s)
    rcases List.mem_cons.1 h with h1 | h1
    · rw [h1]
      by_cases hc : s.2 < p.2
      · rw [if_pos hc]
        exact List.mem_cons_of_mem _ (List.mem_cons_self _ _)
      · rw [if_neg hc]
        exact List.mem_cons_self _ _
    · exact List.mem_cons_of_mem _ (List.mem_cons_of_mem _ h1)

theorem bestOf_first (s : String × Nat) (rest : List (String × Nat)) :
    ∃ l₁ l₂, s :: rest = l₁ ++ bestOf s rest :: l₂ ∧
      ∀ p ∈ l₁, p.2 < (bestOf s rest).2 := by
  induction rest generalizing s with
  | nil => exact ⟨[], [], by simp [bestOf], by simp⟩
  | cons p t ih =>
    simp only [bestOf]
    by_cases hc : s.2 < p.2
    · rw [if_pos hc]
      obtain ⟨l₁, l₂, heq, hlt⟩ := ih p
      refine ⟨s :: l₁, l₂, ?_, ?_⟩
      · rw [List.cons_append, ← heq]
      · intro x hx
        rcases List.mem_cons.1 hx with rfl | hx
        · exact lt_of_lt_of_le hc (bestOf_le p t).1
        · exact hlt x hx
    · rw [if_neg hc]
      obtain ⟨l₁, l₂, heq, hlt⟩ := ih s
      cases l₁ with
      | nil =>
        rw [List.nil_append] at heq
        obtain ⟨h1, h2⟩ := List.cons_eq_cons.1 heq
        refine ⟨[], p :: t, ?_, by simp⟩
        rw [List.nil_append, ← h1]
      | cons a l₁' =>
        rw [List.cons_append] at heq
        obtain ⟨h1, h2⟩ := List.cons_eq_cons.1 heq
        subst h1
        refine ⟨s :: p :: l₁', l₂, ?_, ?_⟩
        · rw [List.cons_append, List.cons_append, ← h2]
        · intro x hx
          have hsbest : s.2 < (bestOf s t).2 := hlt s (List.mem_cons_self _ _)
          rcases List.mem_cons.1 hx with rfl | hx'
          · exact hsbest
          · rcases List.mem_cons.1 hx' with rfl | hx''
            · exact lt_of_le_of_lt (le_of_not_lt hc) hsbest
            · exact hlt x (List.mem_cons_of_mem _ hx'')

theorem pickBest_all_zero (l : List (String × Nat)) (h : ∀ p ∈ l, p.2 = 0) :
    pickBest l = "facility_search" := by
  cases l with
  | nil => rfl
  | cons s rest =>
    simp only [pickBest]
    have hz : (bestOf s rest).2 = 0 := h _ (bestOf_mem s rest)
    rw [hz]
    simp

theorem pickBest_cases (l : List (String × Nat)) :
    pickBest l = "facility_search" ∨ ∃ b ∈ l, pickBest l = b.1 := by
  cases l with
  | nil => exact Or.inl rfl
  | cons s rest =>
    simp only [pickBest]
    by_cases hc : 0 < (bestOf s rest).2
    · exact Or.inr ⟨bestOf s rest, bestOf_mem s rest, by rw [if_pos hc]⟩
    · exact Or.inl (by rw [if_neg hc])

theorem pickBest_pos (s : String × Nat) (rest : List (String × Nat))
    (h : ∃ p ∈ s :: rest, 0 < p.2) :
    ∃ l₁ b l₂, s :: rest = l₁ ++ b :: l₂ ∧ pickBest (s :: rest) = b.1 ∧ 0 < b.2 ∧
      (∀ p ∈ s :: rest, p.2 ≤ b.2) ∧ ∀ p ∈ l₁, p.2 < b.2 := by
  obtain ⟨p0, hp0, hpos⟩ := h
  have hmax : ∀ p ∈ s :: rest, p.2 ≤ (bestOf s rest).2 := by
    intro x hx
    rcases List.mem_cons.1 hx with rfl | hx
    · exact (bestOf_le x rest).1
    · exact (bestOf_le s rest).2 x hx
  have hbpos : 0 < (bestOf s rest).2 := lt_of_lt_of_le hpos (hmax p0 hp0)
  obtain ⟨l₁, l₂, heq, hlt⟩ := bestOf_first s rest
  refine ⟨l₁, bestOf s rest, l₂, heq, ?_, hbpos, hmax, hlt⟩
  simp only [pickBest]
  rw [if_pos hbpos]

/-- Claim C2: `classify_query` always lands in the fixed category set; a
query with zero keyword hits in every category yields the default
`"facility_search"`; and when some category scores, the result is the first
pair of the priority-ordered score list attaining the maximal score (the
earlier pairs all score strictly less). -/
theorem classify_query_spec (q : String) :
    classify_query q ∈
      ["facility_search", "resource_search", "status_query", "geographic_search",
       "statistical"] ∧
    ((∀ p ∈ QUERY_TYPES, scoreOf (pyLower q) p.2 = 0) →
       classify_query q = "facility_search") ∧
    ((∃ p ∈ QUERY_TYPES, 0 < scoreOf (pyLower q) p.2) →
       ∃ l₁ b l₂,
         QUERY_TYPES.map (fun p => (p.1, scoreOf (pyLower q) p.2)) = l₁ ++ b :: l₂ ∧
         classify_query q = b.1 ∧ 0 < b.2 ∧
         (∀ p ∈ QUERY_TYPES, scoreOf (pyLower q) p.2 ≤ b.2) ∧
         ∀ p ∈ l₁, p.2 < b.2) := by
  have hcq : classify_query q =
      pickBest (QUERY_TYPES.map (fun p => (p.1, scoreOf (pyLower q) p.2))) := rfl
  refine ⟨?_, ?_, ?_⟩
  · rcases pickBest_cases (QUERY_TYPES.map (fun p => (p.1, scoreOf (pyLower q) p.2))) with
      h | ⟨b, hb, h⟩
    · rw [hcq, h]
      simp
    · rw [hcq, h]
      obtain ⟨p, hp, rfl⟩ := List.mem_map.1 hb
      fin_cases hp <;> simp
  · intro h
    rw [hcq]
    apply pickBest_all_zero
    intro x hx
    obtain ⟨p, hp, rfl⟩ := List.mem_map.1 hx
    exact h p hp
  · intro h
    obtain ⟨p, hp, hpos⟩ := h
    obtain ⟨s, rest, hsr⟩ :
        ∃ s rest, QUERY_TYPES.map (fun p => (p.1, scoreOf (pyLower q) p.2)) = s :: rest :=
      ⟨_, _, rfl⟩
    have hex : ∃ x ∈ s :: rest, 0 < x.2 := by
      refine ⟨(p.1, scoreOf (pyLower q) p.2), ?_, hpos⟩
      rw [← hsr]
      exact List.mem_map.2 ⟨p, hp, rfl⟩
    obtain ⟨l₁, b, l₂, heq, hpk, hbpos, hmax, hlt⟩ := pickBest_pos s rest hex
    refine ⟨l₁, b, l₂, ?_, ?_, hbpos, ?_, hlt⟩
    · rw [hsr, heq]
    · rw [hcq, hsr]
      exact hpk
    · intro x hx
      refine hmax (x.1, scoreOf (pyLower q) x.2) ?_
      rw [← hsr]
      exact List.mem_map.2 ⟨x, hx, rfl⟩

/-- Witness for C2: a query hitting no keyword falls back to the default. -/
theorem classify_query_spec_witness : classify_query "hello" = "facility_search" :=
  (classify_query_spec "hello").2.1 (by decide)

theorem foldl_overwrite {α β : Type} (g : α → β) (p : α → Bool) (l : List α)
    (acc : Option β) :
    l.foldl (fun a d => if p d then some (g d) else a) acc =
      match l.reverse.find? p with
      | some d => some (g d)
      | none => acc := by
  induction l generalizing acc with
  | nil => rfl
  | cons d t ih =>
    rw [List.foldl_cons, ih, List.reverse_cons, List.find?_append]
    cases h : t.reverse.find? p with
    | some x => simp
    | none =>
      by_cases hp : p d <;> simp [hp, List.find?]

/-- Claim C4 amended: when gazetteer district names occur in the text,
`extract_entities` keeps the LAST matching name in the fixed gazetteer order
— the assignment loop has no break, so later matches overwrite earlier ones
— stored in title case (equivalently: the first match of the reversed
gazetteer). -/
theorem district_last_match (q : String) :
    (extract_entities q).district =
      Option.map pyTitle
        (westbank_districts.reverse.find? (fun d => substrOf d (pyLower q))) := by
  show westbank_districts.foldl
      (fun acc d => if substrOf d (pyLower q) then some (pyTitle d) else acc) none = _
  rw [foldl_overwrite pyTitle (fun d => substrOf d (pyLower q)) westbank_districts none]
  cases h : westbank_districts.reverse.find? (fun d => substrOf d (pyLower q)) <;> simp [h]

/-- Claim C4 counterexample: "ramallah" and "nablus" both occur, "ramallah"
comes first in the gazetteer, yet the extracted district is "Nablus" — the
last match, not the first. -/
theorem district_first_match_counterexample :
    substrOf "ramallah" (pyLower "Hospitals in Ramallah and Nablus") = true ∧
    substrOf "nablus" (pyLower "Hospitals in Ramallah and Nablus") = true ∧
    (extract_entities "Hospitals in Ramallah and Nablus").district = some "Nablus" ∧
    (extract_entities "Hospitals in Ramallah and Nablus").district ≠ some "Ramallah" :=
  ⟨by decide, by decide, by decide, by decide⟩

/-- Claim C6 counterexample: on "Show hospitals within 5km" the extractor
does set the facility subtype — the enum loop matches the substring
"hospital" (and the explicit hospital rule would too) — so the subtype is
not left unset. -/
theorem hospital_scenario_counterexample :
    (extract_entities "Show hospitals within 5km").facility_type = some "hospital" := by
  decide

/-- Claim C6 amended: "Show hospitals within 5km" extracts radius_km = 5.0
and facility_type = "hospital", and classifies as geographic_search. -/
theorem hospital_scenario_amended :
    (extract_entities "Show hospitals within 5km").radius_km = some 5 ∧
    (extract_entities "Show hospitals within 5km").facility_type = some "hospital" ∧
    classify_query "Show hospitals within 5km" = "geographic_search" :=
  ⟨by decide, by decide, by decide⟩

/-- Claim C7: with all three retrieval lists empty and no statistics the
context builder returns the fixed sentinel, and on that sentinel the
deterministic fallback returns the fixed apology text, which the
unconfigured generator pairs with confidence 0.75. -/
theorem empty_context_sentinel_fallback (q lang : String) :
    build_context_prompt [] [] [] none = "No relevant data found in the database." ∧
    generate_fallback_response q "No relevant data found in the database." lang =
      "I couldn\x27t find specific data matching your query. Please try refining your search with more specific terms, or check the available categories: hospitals, clinics, shelters, ambulances." ∧
    generate_llm_response q "No relevant data found in the database." lang
        RemoteOutcome.unconfigured =
      ("I couldn\x27t find specific data matching your query. Please try refining your search with more specific terms, or check the available categories: hospitals, clinics, shelters, ambulances.",
       0.75) := by
  have hsub : substrOf "No relevant data found"
      "No relevant data found in the database." = true := by decide
  refine ⟨rfl, ?_, ?_⟩
  · simp [generate_fallback_response, hsub]
  · simp [generate_llm_response, generate_fallback_response, hsub]

/-- Claim C3: the answer generator's confidence is 0.9 on remote success
with context longer than 200 characters, 0.7 on success otherwise, 0.6 when
the remote call fails, 0.75 when no remote endpoint is configured, and lies
in [0, 1] in every case. -/
theorem generation_confidence_spec (q ctx lang : String) (o : RemoteOutcome) :
    (∀ a, o = RemoteOutcome.success a →
       (generate_llm_response q ctx lang o).2 =
         if ctx.length > 200 then (0.9 : ℚ) else 0.7) ∧
    (o = RemoteOutcome.failure → (generate_llm_response q ctx lang o).2 = 0.6) ∧
    (o = RemoteOutcome.unconfigured → (generate_llm_response q ctx lang o).2 = 0.75) ∧
    0 ≤ (generate_llm_response q ctx lang o).2 ∧
    (generate_llm_response q ctx lang o).2 ≤ 1 := by
  cases o with
  | unconfigured =>
    refine ⟨fun a h => RemoteOutcome.noConfusion h, fun h => RemoteOutcome.noConfusion h, fun _ => rfl, ?_, ?_⟩
    · norm_num [generate_llm_response]
    · norm_num [generate_llm_response]
  | success a =>
    have hv : (generate_llm_response q ctx lang (RemoteOutcome.success a)).2 =
        if ctx.length > 200 then (0.9 : ℚ) else 0.7 := rfl
    refine ⟨fun b _ => hv, fun h => RemoteOutcome.noConfusion h, fun h => RemoteOutcome.noConfusion h, ?_, ?_⟩
    · rw [hv]
      split_ifs <;> norm_num
    · rw [hv]
      split_ifs <;> norm_num
  | failure =>
    refine ⟨fun a h => RemoteOutcome.noConfusion h, fun _ => rfl, fun h => RemoteOutcome.noConfusion h, ?_, ?_⟩
    · norm_num [generate_llm_response]
    · norm_num [generate_llm_response]

/-- Witness for C3: a failing remote call yields confidence 0.6. -/
theorem generation_confidence_spec_witness :
    (generate_llm_response "q" "ctx" "en" RemoteOutcome.failure).2 = 0.6 :=
  (generation_confidence_spec "q" "ctx" "en" RemoteOutcome.failure).2.1 rfl

/-- Claim C8: a failure while creating or persisting the audit row is
swallowed — the `QueryResponse` handed back (answer, confidence, sources,
markers, statistics, timing) is identical whether the audit write succeeded
or failed, and the embedded `process_query` is total, so nothing is raised. -/
theorem audit_failure_invisible (dist : Coord → Coord → ℚ) (req : QueryRequest)
    (db : Database) (user_id : Option String) (llm : RemoteOutcome)
    (elapsed_ms query_id timestamp : Nat) :
    (process_query dist req db user_id llm elapsed_ms query_id timestamp true).1 =
      (process_query dist req db user_id llm elapsed_ms query_id timestamp false).1 := rfl

/-- Witness for C1: a facility exactly at the (zero) radius is returned. -/
theorem retrieval_radius_sort_limit_witness :
    (⟨testFacility,
       some (round2 (flatDist ⟨32, 35⟩ ⟨testFacility.latitude, testFacility.longitude⟩))⟩ :
      RankedFacility) ∈
      search_facilities flatDist [testFacility] { radius_km := some 0 }
        (some 32) (some 35) 10 :=
  (retrieval_radius_sort_limit flatDist [testFacility] [] { radius_km := some 0 }
      32 35 10).2.2.2.1
    testFacility (by simp) (by decide)
    (by simp [flatDist, testFacility, round2_zero])
    (le_trans (search_facilities_within_length_le _ _ _ _ _) (by decide))
